import Mathlib

/-!
Verification of the DockMate repository-analysis and artifact-generation
engine against its design specification, together with an embedding of the
frontend router (`src/dockmate-frontend/dockmate-frontend-full/src/App.jsx`).
The backend engine itself (FastAPI `app/services`) is not present in the
visible source tree, so its components are modelled from the spec text.
-/

namespace DockMate

/-! ## Optimizer/Scorer data model (spec section 4.5) -/

/-- Modelled from the spec: heuristic estimated image-size class of a
template candidate (small/medium/large); the backend Optimizer/Scorer
sources are missing from the repository snapshot. -/
inductive SizeClass
  | small
  | medium
  | large
deriving DecidableEq

/-- Numeric rank of a size class: smaller class ranks lower, hence wins. -/
def SizeClass.rank : SizeClass → Nat
  | .small => 0
  | .medium => 1
  | .large => 2

/-- Modelled from the spec: build strategy of a template candidate. -/
inductive BuildStrategy
  | singleStage
  | multiStage
deriving DecidableEq

/-- Numeric rank of a strategy: multi-stage ranks lower, hence beats
single-stage when available. -/
def BuildStrategy.rank : BuildStrategy → Nat
  | .multiStage => 0
  | .singleStage => 1

/-- Modelled from the spec: a TemplateCandidate of the Template Engine,
with base image tag, build strategy, ordered layer instructions and an
estimated image-size class. -/
structure TemplateCandidate where
  baseImage : String
  strategy : BuildStrategy
  layers : List String
  sizeClass : SizeClass
deriving DecidableEq

/-- Modelled from the spec: the strict priority order of the Optimizer
scoring weights — (1) multi-stage beats single-stage, (2) smaller
estimated image-size class wins, (3) fewer total layer instructions
wins.  `KeyLt a b` holds when `a` strictly beats `b` on this order. -/
def KeyLt (a b : TemplateCandidate) : Prop :=
  a.strategy.rank < b.strategy.rank ∨
    (a.strategy.rank = b.strategy.rank ∧
      (a.sizeClass.rank < b.sizeClass.rank ∨
        (a.sizeClass.rank = b.sizeClass.rank ∧
          a.layers.length < b.layers.length)))

instance (a b : TemplateCandidate) : Decidable (KeyLt a b) := by
  unfold KeyLt
  infer_instance

/-- Boolean form of the scoring comparison used by the fold in `select`. -/
def betterThan (a b : TemplateCandidate) : Bool :=
  decide (KeyLt a b)

/-- Modelled from the spec: left fold keeping the current best candidate;
a later candidate replaces the current best only when it is strictly
better, so the earlier-emitted candidate survives every tie. -/
def selectFrom : TemplateCandidate → List TemplateCandidate → TemplateCandidate
  | best, [] => best
  | best, c :: cs => selectFrom (if betterThan c best then c else best) cs

/-- Modelled from the spec: `select` of the Optimizer/Scorer — picks the
single best-scoring candidate of a sequence, deterministically. -/
def select : List TemplateCandidate → Option TemplateCandidate
  | [] => none
  | c :: cs => some (selectFrom c cs)

/-! Order facts about `KeyLt` used in the analysis of `selectFrom`. -/

lemma keyLt_irrefl (a : TemplateCandidate) : ¬ KeyLt a a := by
  unfold KeyLt
  omega

lemma notKeyLt_trans {a b c : TemplateCandidate}
    (hab : ¬ KeyLt a b) (hbc : ¬ KeyLt b c) : ¬ KeyLt a c := by
  unfold KeyLt at *
  omega

lemma keyLt_of_lt_of_notLt {c b r : TemplateCandidate}
    (hcb : KeyLt c b) (hcr : ¬ KeyLt c r) : ¬ KeyLt b r := by
  unfold KeyLt at *
  omega

lemma keyLt_chain_left {c b r : TemplateCandidate}
    (hcb : KeyLt c b) (hcr : ¬ KeyLt c r) : KeyLt r b := by
  unfold KeyLt at *
  omega

lemma keyLt_chain_right {c b r : TemplateCandidate}
    (hrb : KeyLt r b) (hcb : ¬ KeyLt c b) : KeyLt r c := by
  unfold KeyLt at *
  omega

lemma betterThan_true_iff (a b : TemplateCandidate) :
    betterThan a b = true ↔ KeyLt a b := by
  simp [betterThan]

/-- Core analysis of the fold: its result is minimal for `KeyLt` over the
whole pool, and it occurs in the pool strictly beating everything emitted
before it. -/
lemma selectFrom_spec (cs : List TemplateCandidate) : ∀ b : TemplateCandidate,
    (∀ c ∈ b :: cs, ¬ KeyLt c (selectFrom b cs)) ∧
      ∃ l1 l2, b :: cs = l1 ++ selectFrom b cs :: l2 ∧
        ∀ c ∈ l1, KeyLt (selectFrom b cs) c := by
  induction cs with
  | nil =>
    intro b
    refine ⟨?_, [], [], rfl, by simp⟩
    intro c hc
    simp only [List.mem_singleton] at hc
    subst hc
    exact keyLt_irrefl c
  | cons c cs ih =>
    intro b
    have hsel : selectFrom b (c :: cs) =
        selectFrom (if betterThan c b then c else b) cs := rfl
    by_cases hcb : KeyLt c b
    · have hbt : betterThan c b = true := (betterThan_true_iff c b).mpr hcb
      rw [hsel, if_pos hbt]
      obtain ⟨hmin, l1, l2, hdec, hall⟩ := ih c
      have hcr : ¬ KeyLt c (selectFrom c cs) := hmin c (List.mem_cons_self c cs)
      refine ⟨?_, b :: l1, l2, ?_, ?_⟩
      · intro x hx
        rcases List.mem_cons.mp hx with hx | hx
        · subst hx
          exact keyLt_of_lt_of_notLt hcb hcr
        · exact hmin x hx
      · rw [List.cons_append]
        exact congrArg (b :: ·) hdec
      · intro x hx
        rcases List.mem_cons.mp hx with hx | hx
        · subst hx
          exact keyLt_chain_left hcb hcr
        · exact hall x hx
    · have hbt : betterThan c b = false := by
        simp [betterThan, hcb]
      rw [hsel, if_neg (by simp [hbt])]
      obtain ⟨hmin, l1, l2, hdec, hall⟩ := ih b
      have hbr : ¬ KeyLt b (selectFrom b cs) := hmin b (List.mem_cons_self b cs)
      refine ⟨?_, ?_⟩
      · intro x hx
        rcases List.mem_cons.mp hx with hx | hx
        · subst hx
          exact hbr
        rcases List.mem_cons.mp hx with hx | hx
        · subst hx
          exact notKeyLt_trans hcb hbr
        · exact hmin x (List.mem_cons_of_mem b hx)
      · cases l1 with
        | nil =>
          have hb : b = selectFrom b cs := by
            simpa using congrArg (fun l => l.head?) hdec
          refine ⟨[], c :: cs, ?_, by simp⟩
          simp [← hb]
        | cons y l1' =>
          have hy : b = y ∧ cs = l1' ++ selectFrom b cs :: l2 := by
            constructor
            · simpa using congrArg (fun l => l.head?) hdec
            · simpa using congrArg (fun l => l.tail) hdec
          obtain ⟨hy1, hy2⟩ := hy
          have hrb : KeyLt (selectFrom b cs) b := by
            apply hall
            rw [← hy1] at hdec ⊢
            exact List.mem_cons_self b l1'
          refine ⟨b :: c :: l1', l2, ?_, ?_⟩
          · rw [List.cons_append, List.cons_append, ← hy2]
          · intro x hx
            rcases List.mem_cons.mp hx with hx | hx
            · subst hx
              exact hrb
            rcases List.mem_cons.mp hx with hx | hx
            · subst hx
              exact keyLt_chain_right hrb hcb
            · apply hall
              rw [← hy1]
              exact List.mem_cons_of_mem b hx

/-! ## Project data model (spec section 3) -/

/-- Modelled from the spec: primary language/runtime detected by the
Classifier; the backend Classifier sources are missing. -/
inductive Language
  | javascript
  | python
  | golang
  | java
deriving DecidableEq

/-- Modelled from the spec: optional framework detected by the Classifier.
`plainLib` stands for a recognized framework with no documented
conventional default port. -/
inductive Framework
  | express
  | fastapi
  | flask
  | plainLib
deriving DecidableEq

/-- Modelled from the spec: detected package manager. -/
inductive PackageManager
  | npm
  | pip
  | goMod
  | maven
deriving DecidableEq

/-- Modelled from the spec: detected build tool. -/
inductive BuildTool
  | npmScripts
  | setuptools
  | goBuild
  | mavenBuild
deriving DecidableEq

/-- Modelled from the spec: the ProjectProfile produced by the Classifier,
immutable once finalized. -/
structure ProjectProfile where
  language : Language
  framework : Option Framework
  packageManager : PackageManager
  buildTool : BuildTool
  manifestPaths : List String
  hasLockfile : Bool
deriving DecidableEq

/-- Modelled from the spec: the Entrypoint produced by the Resolver:
start command, working directory, ordered (possibly empty) port list and
optional build/install commands. -/
structure Entrypoint where
  startCommand : String
  workingDir : String
  ports : List Nat
  buildCommand : Option String
  installCommand : Option String
deriving DecidableEq

/-! ## Template Engine (spec section 4.4) -/

/-- Modelled from the spec: canonical dependency-install command of a
package manager, used by templates and the Workflow Synthesizer. -/
def installCmdOf : PackageManager → String
  | .npm => "npm ci"
  | .pip => "pip install -r requirements.txt"
  | .goMod => "go mod download"
  | .maven => "mvn -q dependency:resolve"

/-- Modelled from the spec: most specific runtime base-image tag for the
detected language. -/
def runtimeTag : Language → String
  | .javascript => "node:20-alpine"
  | .python => "python:3.11-slim"
  | .golang => "golang:1.22-alpine"
  | .java => "eclipse-temurin:21-jre"

/-- Modelled from the spec: whether the language/build-tool combination
supports a multi-stage build variant. -/
def supportsMultiStage : Language → BuildTool → Bool
  | .python, _ => false
  | _, _ => true

/-- Modelled from the spec: the single-stage candidate — copy sources,
install dependencies, run the start command. -/
def singleStageCandidate (p : ProjectProfile) (e : Entrypoint) : TemplateCandidate :=
  { baseImage := runtimeTag p.language
    strategy := .singleStage
    layers := ["WORKDIR " ++ e.workingDir, "COPY . .",
               "RUN " ++ installCmdOf p.packageManager] ++
              (e.ports.map (fun q => "EXPOSE " ++ toString q)) ++
              ["CMD " ++ e.startCommand]
    sizeClass := .medium }

/-- Modelled from the spec: the multi-stage candidate — separate build
and runtime images, copying only build artifacts forward. -/
def multiStageCandidate (p : ProjectProfile) (e : Entrypoint) : TemplateCandidate :=
  { baseImage := runtimeTag p.language
    strategy := .multiStage
    layers := ["WORKDIR " ++ e.workingDir, "COPY . .",
               "RUN " ++ installCmdOf p.packageManager,
               "RUN " ++ (e.buildCommand.getD "true"),
               "COPY --from=build " ++ e.workingDir ++ " " ++ e.workingDir] ++
              (e.ports.map (fun q => "EXPOSE " ++ toString q)) ++
              ["CMD " ++ e.startCommand]
    sizeClass := .small }

/-- Modelled from the spec: `buildCandidates` of the Template Engine —
always emits the single-stage candidate, plus the multi-stage candidate
when the combination supports it. -/
def buildCandidates (p : ProjectProfile) (e : Entrypoint) : List TemplateCandidate :=
  if supportsMultiStage p.language p.buildTool then
    [singleStageCandidate p e, multiStageCandidate p e]
  else
    [singleStageCandidate p e]

/-! ## Classifier (spec section 4.2) -/

/-- Modelled from the spec: one entry of the ordered table of manifest
signatures used by the Classifier (framework-level signatures carry a
higher specificity than language-level ones). -/
structure Signature where
  name : String
  specificity : Nat
  patterns : List String
  profile : ProjectProfile
deriving DecidableEq

/-- Modelled from the spec: number of supporting file-pattern matches of a
signature against the workspace file listing. -/
def matchCount (files : List String) (s : Signature) : Nat :=
  (s.patterns.filter (fun q => files.contains q)).length

/-- Signatures with at least one supporting match. -/
def matchedSigs (table : List Signature) (files : List String) : List Signature :=
  table.filter (fun s => decide (0 < matchCount files s))

/-- Greatest specificity among the matched signatures. -/
def maxSpecificity (table : List Signature) (files : List String) : Nat :=
  ((matchedSigs table files).map (fun s => s.specificity)).foldl max 0

/-- Matched signatures of greatest specificity (the top-ranked ones). -/
def topSigs (table : List Signature) (files : List String) : List Signature :=
  (matchedSigs table files).filter
    (fun s => decide (s.specificity = maxSpecificity table files))

/-- Greatest supporting match count among the top-ranked signatures. -/
def maxSupport (table : List Signature) (files : List String) : Nat :=
  ((topSigs table files).map (fun s => matchCount files s)).foldl max 0

/-- Top-ranked signatures surviving the supporting-match-count tie-break. -/
def bestSigs (table : List Signature) (files : List String) : List Signature :=
  (topSigs table files).filter
    (fun s => decide (matchCount files s = maxSupport table files))

/-- Modelled from the spec: Classifier error taxonomy. -/
inductive ClassifyError
  | Ambiguous
  | Unrecognized
deriving DecidableEq

/-- Modelled from the spec: `classify` — no match is `Unrecognized`; a
unique best signature yields its profile; an unresolved tie after the
specificity and match-count tie-breaks is `Ambiguous`. -/
def classify (table : List Signature) (files : List String) :
    Except ClassifyError ProjectProfile :=
  match matchedSigs table files with
  | [] => .error .Unrecognized
  | _ :: _ =>
    match bestSigs table files with
    | [s] => .ok s.profile
    | _ => .error .Ambiguous

/-! ## Entrypoint Resolver (spec section 4.3) -/

/-- Modelled from the spec: the facts the Resolver reads off the fetched
manifest/configuration — declared scripts, an optional explicit bind
address port, and an optional well-known main file. -/
structure ManifestInfo where
  scripts : List (String × String)
  explicitBindPort : Option Nat
  mainFile : Option String
deriving DecidableEq

/-- Look a script command up by key in the manifest script table. -/
def lookupScript (scripts : List (String × String)) (key : String) : Option String :=
  match scripts.find? (fun kv => kv.1 == key) with
  | some kv => some kv.2
  | none => none

/-- Modelled from the spec: language-convention default start command
derived from a well-known main-file name. -/
def conventionalStart : Language → Option String → Option String
  | _, none => none
  | .javascript, some f => some ("node " ++ f)
  | .python, some f => some ("python " ++ f)
  | .golang, some f => some ("go run " ++ f)
  | .java, some f => some ("java -jar " ++ f)

/-- Modelled from the spec: start-command resolution — the canonical
"start" script first, then "serve", then the language-convention
default. -/
def startOf (m : ManifestInfo) (p : ProjectProfile) : Option String :=
  match lookupScript m.scripts "start" with
  | some c => some c
  | none =>
    match lookupScript m.scripts "serve" with
    | some c => some c
    | none => conventionalStart p.language m.mainFile

/-- Modelled from the spec: documented conventional default port of a
detected framework (none when the framework has no convention). -/
def frameworkDefaultPort : Option Framework → Option Nat
  | some .express => some 3000
  | some .fastapi => some 8000
  | some .flask => some 5000
  | some .plainLib => none
  | none => none

/-- Modelled from the spec: port-detection chain — explicit bind address
first, then the framework's conventional default, else an empty port list
with a warning. Returns (ports, warnings). -/
def resolvePorts (m : ManifestInfo) (fw : Option Framework) :
    List Nat × List String :=
  match m.explicitBindPort with
  | some q => ([q], [])
  | none =>
    match frameworkDefaultPort fw with
    | some d => ([d], [])
    | none => ([], ["no listening port detected; none will be exposed"])

/-- Modelled from the spec: Resolver error taxonomy. -/
inductive ResolveError
  | NoEntrypoint
  | NoTemplate
deriving DecidableEq

/-- Modelled from the spec: `resolve` — fails with `NoEntrypoint` exactly
when no start command can be determined; otherwise builds the Entrypoint,
with the port list from the port-detection chain. Returns the result
paired with the emitted warnings. -/
def resolve (m : ManifestInfo) (p : ProjectProfile) :
    (Except ResolveError Entrypoint) × List String :=
  match startOf m p with
  | none => (.error .NoEntrypoint, [])
  | some cmd =>
    let pw := resolvePorts m p.framework
    (.ok { startCommand := cmd
           workingDir := "/app"
           ports := pw.1
           buildCommand := lookupScript m.scripts "build"
           installCommand := some (installCmdOf p.packageManager) }, pw.2)

/-! ## Fetcher (spec section 4.1) -/

/-- Modelled from the spec: Fetcher error taxonomy. -/
inductive FetchError
  | TooLarge
  | Timeout
  | NotFound
  | AccessDenied
deriving DecidableEq

/-- Modelled from the spec: the limits the Fetcher enforces. -/
structure FetchLimits where
  maxBytes : Nat
  maxFiles : Nat
  maxSeconds : Nat
deriving DecidableEq

/-- Modelled from the spec: what a shallow retrieval of the remote
repository would observe — availability, measured size/count/duration,
the delivered file tree and the parsed manifest facts. -/
structure RemoteRepo where
  url : String
  revision : String
  found : Bool
  accessible : Bool
  totalBytes : Nat
  fileCount : Nat
  fetchSeconds : Nat
  files : List String
  manifest : ManifestInfo
deriving DecidableEq

/-- Modelled from the spec: the Workspace record — local root path, byte
size, file count and fetch duration — together with the fetched content
read by the later stages. -/
structure Workspace where
  root : String
  byteSize : Nat
  fileCount : Nat
  fetchSeconds : Nat
  files : List String
  manifest : ManifestInfo
deriving DecidableEq

/-- Scoped release of the workspace directory: every entry equal to the
workspace root is removed from the disk listing. -/
def cleanupDir (wsDir : String) (disk : List String) : List String :=
  disk.filter (fun d => decide (d ≠ wsDir))

/-- Modelled from the spec: the pure decision core of `fetch` —
availability checks, then each limit in turn (bytes, file count,
wall-clock), aborting with the corresponding error. -/
def fetchCheck (repo : RemoteRepo) (lim : FetchLimits) (wsDir : String) :
    Except FetchError Workspace :=
  if repo.found = false then .error .NotFound
  else if repo.accessible = false then .error .AccessDenied
  else if lim.maxBytes < repo.totalBytes then .error .TooLarge
  else if lim.maxFiles < repo.fileCount then .error .TooLarge
  else if lim.maxSeconds < repo.fetchSeconds then .error .Timeout
  else .ok { root := wsDir
             byteSize := repo.totalBytes
             fileCount := repo.fileCount
             fetchSeconds := repo.fetchSeconds
             files := repo.files
             manifest := repo.manifest }

/-- Modelled from the spec: `fetch` with its disk side effect — the
workspace directory is materialized while streaming, and on any abort the
partial data under it is removed before returning. -/
def fetch (repo : RemoteRepo) (lim : FetchLimits) (wsDir : String)
    (disk : List String) : (Except FetchError Workspace) × List String :=
  match fetchCheck repo lim wsDir with
  | .error r => (.error r, cleanupDir wsDir (wsDir :: disk))
  | .ok w => (.ok w, wsDir :: disk)

/-! ## Generation (spec sections 4.5 to 4.7) -/

/-- Modelled from the spec: pure rendering of a Dockerfile from the
selected template candidate. -/
def renderDockerfile (c : TemplateCandidate) : String :=
  "FROM " ++ c.baseImage ++ "\n" ++ String.intercalate "\n" c.layers

/-- Modelled from the spec: pure rendering of the compose file. -/
def renderCompose (p : ProjectProfile) (e : Entrypoint) : String :=
  "services:\n  app:\n    build: .\n    command: " ++ e.startCommand ++ "\n" ++
    String.intercalate "\n"
      (e.ports.map (fun q => "    - " ++ toString q ++ ":" ++ toString q)) ++
    "\n# language: " ++ runtimeTag p.language

/-- Modelled from the spec: the Workflow Synthesizer — a three-stage
pipeline (install, build/test, publish) parameterized by the package
manager's canonical commands, with skip markers instead of failures. -/
def synthesize (p : ProjectProfile) (e : Entrypoint) : String :=
  "stages:\n- install: " ++ installCmdOf p.packageManager ++
    "\n- build: " ++ (e.buildCommand.getD "skip") ++
    "\n- publish: docker build ."

/-- Modelled from the spec: ordered human-readable decision records of
the Optimizer, one per scoring criterion consulted. -/
def reportOf (c : TemplateCandidate) : List String :=
  ["strategy: " ++ (match c.strategy with
      | .multiStage => "multi-stage"
      | .singleStage => "single-stage"),
   "size class rank: " ++ toString c.sizeClass.rank,
   "layer instructions: " ++ toString c.layers.length]

/-- Modelled from the spec: the terminal immutable GenerationResult
bundle, with timestamp field. -/
structure GenerationResult where
  dockerfile : String
  compose : String
  workflow : String
  report : List String
  warnings : List String
  status : String
  timestamp : Nat
deriving DecidableEq

/-- Erase the timestamp field, for comparison modulo timestamp. -/
def stripTimestamp (g : GenerationResult) : GenerationResult :=
  { g with timestamp := 0 }

/-- Modelled from the spec: the pipeline stages of the Orchestrator. -/
inductive Stage
  | Fetching
  | Classifying
  | Resolving
  | Generating
deriving DecidableEq

/-- Modelled from the spec: Orchestrator state-machine states — Pending,
one running state per stage, the Done terminal and the Failed terminal. -/
inductive OState
  | Pending
  | StageRunning (s : Stage)
  | Done
  | Failed (s : Stage) (reason : String)
deriving DecidableEq

/-- Render a Fetcher error as the Failed-state reason string. -/
def fetchErrReason : FetchError → String
  | .TooLarge => "TooLarge"
  | .Timeout => "Timeout"
  | .NotFound => "NotFound"
  | .AccessDenied => "AccessDenied"

/-- Render a Classifier error as the Failed-state reason string. -/
def classifyErrReason : ClassifyError → String
  | .Ambiguous => "Ambiguous"
  | .Unrecognized => "Unrecognized"

/-- Render a Resolver error as the Failed-state reason string. -/
def resolveErrReason : ResolveError → String
  | .NoEntrypoint => "NoEntrypoint"
  | .NoTemplate => "NoTemplate"

/-- Modelled from the spec: one analysis request — the remote repository
as it stands, the configured limits, the signature table, the temporary
workspace directory chosen for the call, the wall-clock timestamp and an
optional cancellation point at a stage boundary. -/
structure AnalysisRequest where
  repo : RemoteRepo
  limits : FetchLimits
  table : List Signature
  wsDir : String
  timestamp : Nat
  cancelAt : Option Stage
deriving DecidableEq

/-- Modelled from the spec: the Generation Orchestrator — sequences
fetch, classify, resolve and generation, checking for cancellation at
every stage boundary, and returns the visited state trace together with
the optional result bundle (none on failure or cancellation). -/
def orchestrate (req : AnalysisRequest) : List OState × Option GenerationResult :=
  if req.cancelAt = some Stage.Fetching then ([OState.Pending], none) else
  match fetchCheck req.repo req.limits req.wsDir with
  | .error r =>
    ([OState.Pending, OState.StageRunning .Fetching,
      OState.Failed .Fetching (fetchErrReason r)], none)
  | .ok w =>
    if req.cancelAt = some Stage.Classifying then
      ([OState.Pending, OState.StageRunning .Fetching], none) else
    match classify req.table w.files with
    | .error r =>
      ([OState.Pending, OState.StageRunning .Fetching,
        OState.StageRunning .Classifying,
        OState.Failed .Classifying (classifyErrReason r)], none)
    | .ok p =>
      if req.cancelAt = some Stage.Resolving then
        ([OState.Pending, OState.StageRunning .Fetching,
          OState.StageRunning .Classifying], none) else
      match resolve w.manifest p with
      | (.error r, _) =>
        ([OState.Pending, OState.StageRunning .Fetching,
          OState.StageRunning .Classifying, OState.StageRunning .Resolving,
          OState.Failed .Resolving (resolveErrReason r)], none)
      | (.ok e, warns) =>
        if req.cancelAt = some Stage.Generating then
          ([OState.Pending, OState.StageRunning .Fetching,
            OState.StageRunning .Classifying, OState.StageRunning .Resolving],
           none) else
        match select (buildCandidates p e) with
        | none =>
          ([OState.Pending, OState.StageRunning .Fetching,
            OState.StageRunning .Classifying, OState.StageRunning .Resolving,
            OState.StageRunning .Generating,
            OState.Failed .Generating (resolveErrReason .NoTemplate)], none)
        | some c =>
          ([OState.Pending, OState.StageRunning .Fetching,
            OState.StageRunning .Classifying, OState.StageRunning .Resolving,
            OState.StageRunning .Generating, OState.Done],
           some { dockerfile := renderDockerfile c
                  compose := renderCompose p e
                  workflow := synthesize p e
                  report := reportOf c
                  warnings := warns
                  status := "ok"
                  timestamp := req.timestamp })

/-- Modelled from the spec: one full analysis call with its disk side
effects — the workspace directory is acquired before the pipeline runs
and released afterwards on every outcome (success, failure or
cancellation). -/
def runAnalysis (req : AnalysisRequest) (disk : List String) :
    (List OState × Option GenerationResult) × List String :=
  (orchestrate req, cleanupDir req.wsDir (req.wsDir :: disk))

/-! ## Frontend router, embedded from
`src/dockmate-frontend/dockmate-frontend-full/src/App.jsx` -/

/-- The four page components imported by `App.jsx`. -/
inductive Page
  | Dashboard
  | Login
  | Signup
  | SubmitRepo
deriving DecidableEq

/-- A route element of `App.jsx`: either a page or a `Navigate` redirect. -/
inductive RouteElement
  | page (p : Page)
  | navigateTo (dest : String)
deriving DecidableEq

/-- The rendered navigation bar of `Navbar.jsx`: brand text and the
anchor links it shows. -/
structure NavbarView where
  brand : String
  links : List (String × String)
deriving DecidableEq

/-- The `Navbar` component: brand "DockMate" with Dashboard, Login and
Signup links. -/
def Navbar : NavbarView :=
  { brand := "DockMate"
    links := [("/", "Dashboard"), ("/login", "Login"), ("/signup", "Signup")] }

/-- The route table of `App.jsx`, in source order, ending in the
wildcard route that renders `Navigate to="/"`. -/
def appRoutes : List (String × RouteElement) :=
  [("/", .page .Dashboard),
   ("/login", .page .Login),
   ("/signup", .page .Signup),
   ("/submit", .page .SubmitRepo),
   ("*", .navigateTo "/")]

/-- First-match route resolution of the `Routes` switch: a route matches
when its path pattern is the wildcard or equals the browser path. -/
def matchRoute : List (String × RouteElement) → String → Option RouteElement
  | [], _ => none
  | r :: rest, path =>
    if r.1 = "*" ∨ r.1 = path then some r.2 else matchRoute rest path

/-- A node of the rendered `App` tree. -/
inductive Node
  | navbarNode (v : NavbarView)
  | pageNode (p : Page)
  | redirectNode (dest : String)
deriving DecidableEq

/-- The `App` component: the navigation bar mounted outside the `Routes`
switch, followed by whatever the switch renders for the path. -/
def renderApp (path : String) : List Node :=
  Node.navbarNode Navbar ::
    (match matchRoute appRoutes path with
     | some (.page p) => [Node.pageNode p]
     | some (.navigateTo t) => [Node.redirectNode t]
     | none => [])

/-! ## Sample data used by the concrete instantiations -/

/-- A single-stage sample candidate. -/
def sampleA : TemplateCandidate :=
  { baseImage := "python:3.11-slim"
    strategy := .singleStage
    layers := ["COPY . ."]
    sizeClass := .small }

/-- A multi-stage sample candidate. -/
def sampleB : TemplateCandidate :=
  { baseImage := "golang:1.22-alpine"
    strategy := .multiStage
    layers := ["COPY . .", "RUN go build", "CMD ./app"]
    sizeClass := .large }

/-- A sample Express/npm project profile. -/
def sampleProfile : ProjectProfile :=
  { language := .javascript
    framework := some .express
    packageManager := .npm
    buildTool := .npmScripts
    manifestPaths := ["package.json"]
    hasLockfile := true }

/-- A sample entrypoint for the Express profile. -/
def sampleEntry : Entrypoint :=
  { startCommand := "npm start"
    workingDir := "/app"
    ports := [3000]
    buildCommand := some "npm run build"
    installCommand := some "npm ci" }

/-! ## Claim theorems -/

/-- C1: for every non-empty sequence of template candidates, `select`
returns exactly one candidate, chosen by the priority order: it is
minimal for `KeyLt` (multi-stage beats single-stage, then smaller size
class, then fewer layer instructions) over the whole sequence, and it
strictly beats every candidate emitted before it, so the remaining tie is
broken in favor of the earlier-emitted candidate, never randomly. -/
theorem select_priority_order (l : List TemplateCandidate) (h : l ≠ []) :
    ∃ m, select l = some m ∧ m ∈ l ∧ (∀ c ∈ l, ¬ KeyLt c m) ∧
      ∃ l1 l2, l = l1 ++ m :: l2 ∧ ∀ c ∈ l1, KeyLt m c := by
  cases l with
  | nil => exact absurd rfl h
  | cons b cs =>
    obtain ⟨hmin, l1, l2, hdec, hall⟩ := selectFrom_spec cs b
    refine ⟨selectFrom b cs, rfl, ?_, hmin, l1, l2, hdec, hall⟩
    rw [hdec]
    exact List.mem_append_right _ (List.mem_cons_self _ _)

/-- Concrete instantiation of `select_priority_order` on a two-candidate
pool. -/
theorem select_priority_order_check :
    ∃ m, select [sampleA, sampleB] = some m ∧ m ∈ [sampleA, sampleB] ∧
      (∀ c ∈ [sampleA, sampleB], ¬ KeyLt c m) ∧
      ∃ l1 l2, [sampleA, sampleB] = l1 ++ m :: l2 ∧ ∀ c ∈ l1, KeyLt m c :=
  select_priority_order [sampleA, sampleB] (by simp)

/-- C2: for every (profile, entrypoint) input, repeated calls of
`select (buildCandidates profile entrypoint)` with identical inputs give
identical outputs, and the composed function always yields exactly one
candidate. -/
theorem composed_select_deterministic (p p' : ProjectProfile)
    (e e' : Entrypoint) (hp : p = p') (he : e = e') :
    select (buildCandidates p e) = select (buildCandidates p' e') ∧
      ∃ c, select (buildCandidates p e) = some c := by
  subst hp
  subst he
  refine ⟨rfl, ?_⟩
  unfold buildCandidates
  cases hs : supportsMultiStage p.language p.buildTool <;> simp [hs, select]

/-- Concrete instantiation of `composed_select_deterministic` on the
sample Express profile. -/
theorem composed_select_deterministic_check :
    select (buildCandidates sampleProfile sampleEntry) =
        select (buildCandidates sampleProfile sampleEntry) ∧
      ∃ c, select (buildCandidates sampleProfile sampleEntry) = some c :=
  composed_select_deterministic sampleProfile sampleProfile
    sampleEntry sampleEntry rfl rfl

/-- C4: after every analysis call — success, any stage failure, or
cancellation at any stage boundary — the workspace directory created for
the call is absent from the resulting disk listing. -/
theorem workspace_cleanup (req : AnalysisRequest) (disk : List String) :
    req.wsDir ∉ (runAnalysis req disk).2 := by
  simp [runAnalysis, cleanupDir]

/-- C9: every browser path other than "/", "/login", "/signup" and
"/submit" falls through to the wildcard route of `App.jsx`, which renders
a redirect to "/" next to the navigation bar, so no such path renders an
unmatched or blank route. -/
theorem app_wildcard_redirect (path : String)
    (h1 : path ≠ "/") (h2 : path ≠ "/login") (h3 : path ≠ "/signup")
    (h4 : path ≠ "/submit") :
    renderApp path = [Node.navbarNode Navbar, Node.redirectNode "/"] := by
  simp [renderApp, appRoutes, matchRoute,
    Ne.symm h1, Ne.symm h2, Ne.symm h3, Ne.symm h4]

/-- Concrete instantiation of `app_wildcard_redirect` on an unknown
path. -/
theorem app_wildcard_redirect_check :
    renderApp "/nonexistent" = [Node.navbarNode Navbar, Node.redirectNode "/"] :=
  app_wildcard_redirect "/nonexistent" (by decide) (by decide) (by decide)
    (by decide)

/-- C10: on every path the application can render, the navigation bar is
part of the rendered tree, because `Navbar` is mounted outside the
`Routes` switch in `App.jsx`. -/
theorem app_navbar_on_every_route (path : String) :
    Node.navbarNode Navbar ∈ renderApp path := by
  simp [renderApp]

/-- C3: whenever two distinct top-ranked signatures (matched, of maximal
specificity) also tie on the supporting file-pattern match count after
the Classifier's tie-break rules, `classify` returns
`ClassifyError.Ambiguous` and never a ProjectProfile. -/
theorem classify_ambiguous_tie (table : List Signature) (files : List String)
    (s1 s2 : Signature)
    (h1 : s1 ∈ topSigs table files) (h2 : s2 ∈ topSigs table files)
    (hne : s1 ≠ s2)
    (hc1 : matchCount files s1 = maxSupport table files)
    (hc2 : matchCount files s2 = maxSupport table files) :
    classify table files = .error .Ambiguous := by
  have hb1 : s1 ∈ bestSigs table files :=
    List.mem_filter.mpr ⟨h1, by simp [hc1]⟩
  have hb2 : s2 ∈ bestSigs table files :=
    List.mem_filter.mpr ⟨h2, by simp [hc2]⟩
  have hm1 : s1 ∈ matchedSigs table files := (List.mem_filter.mp h1).1
  unfold classify
  rcases hmm : matchedSigs table files with _ | ⟨a, rest⟩
  · rw [hmm] at hm1
    simp at hm1
  · rcases hbb : bestSigs table files with _ | ⟨x, _ | ⟨y, t⟩⟩
    · rfl
    · rw [hbb] at hb1 hb2
      simp only [List.mem_singleton] at hb1 hb2
      exact absurd (hb1.trans hb2.symm) hne
    · rfl

/-- A sample framework-level signature for Express. -/
def sigExpress : Signature :=
  { name := "express"
    specificity := 5
    patterns := ["package.json"]
    profile := sampleProfile }

/-- A sample Python/FastAPI project profile. -/
def pyProfile : ProjectProfile :=
  { language := .python
    framework := some .fastapi
    packageManager := .pip
    buildTool := .setuptools
    manifestPaths := ["requirements.txt"]
    hasLockfile := false }

/-- A sample framework-level signature for FastAPI, of the same
specificity as `sigExpress`. -/
def sigFastapi : Signature :=
  { name := "fastapi"
    specificity := 5
    patterns := ["requirements.txt"]
    profile := pyProfile }

/-- Concrete instantiation of `classify_ambiguous_tie` on a workspace
matching two frameworks equally. -/
theorem classify_ambiguous_tie_check :
    classify [sigExpress, sigFastapi] ["package.json", "requirements.txt"] =
      .error .Ambiguous :=
  classify_ambiguous_tie [sigExpress, sigFastapi]
    ["package.json", "requirements.txt"] sigExpress sigFastapi
    (by decide) (by decide) (by decide) (by decide) (by decide)

/-- C5: when the repository is reachable but exceeds any configured limit
(total bytes, file count or wall-clock duration), `fetch` aborts with a
`FetchError`, retains no partial files under the workspace directory, and
exceeding the byte limit in particular yields `FetchError.TooLarge`. -/
theorem fetch_limit_abort (repo : RemoteRepo) (lim : FetchLimits)
    (wsDir : String) (disk : List String)
    (hfound : repo.found = true) (hacc : repo.accessible = true)
    (hover : lim.maxBytes < repo.totalBytes ∨ lim.maxFiles < repo.fileCount ∨
      lim.maxSeconds < repo.fetchSeconds) :
    ∃ r : FetchError, (fetch repo lim wsDir disk).1 = .error r ∧
      wsDir ∉ (fetch repo lim wsDir disk).2 ∧
      (lim.maxBytes < repo.totalBytes → r = .TooLarge) := by
  obtain ⟨r, hr, himp⟩ : ∃ r, fetchCheck repo lim wsDir = .error r ∧
      (lim.maxBytes < repo.totalBytes → r = .TooLarge) := by
    unfold fetchCheck
    rw [if_neg (by simp [hfound]), if_neg (by simp [hacc])]
    by_cases hq1 : lim.maxBytes < repo.totalBytes
    · rw [if_pos hq1]
      exact ⟨.TooLarge, rfl, fun _ => rfl⟩
    · rw [if_neg hq1]
      by_cases hq2 : lim.maxFiles < repo.fileCount
      · rw [if_pos hq2]
        exact ⟨.TooLarge, rfl, fun hq => absurd hq hq1⟩
      · rw [if_neg hq2]
        rcases hover with hq | hq | hq
        · exact absurd hq hq1
        · exact absurd hq hq2
        · rw [if_pos hq]
          exact ⟨.Timeout, rfl, fun hb => absurd hb hq1⟩
  refine ⟨r, ?_, ?_, himp⟩
  · simp [fetch, hr]
  · simp [fetch, hr, cleanupDir]

/-- A sample repository whose retrieval exceeds the byte limit. -/
def bigRepo : RemoteRepo :=
  { url := "https://example.com/big.git"
    revision := "main"
    found := true
    accessible := true
    totalBytes := 500000000
    fileCount := 10
    fetchSeconds := 5
    files := []
    manifest := { scripts := [], explicitBindPort := none, mainFile := none } }

/-- Sample fetch limits well below `bigRepo`'s size. -/
def smallLimits : FetchLimits :=
  { maxBytes := 1000000
    maxFiles := 10000
    maxSeconds := 60 }

/-- Concrete instantiation of `fetch_limit_abort` on a repository over
the byte limit. -/
theorem fetch_limit_abort_check :
    ∃ r : FetchError, (fetch bigRepo smallLimits "/tmp/ws1" []).1 = .error r ∧
      "/tmp/ws1" ∉ (fetch bigRepo smallLimits "/tmp/ws1" []).2 ∧
      (smallLimits.maxBytes < bigRepo.totalBytes → r = .TooLarge) :=
  fetch_limit_abort bigRepo smallLimits "/tmp/ws1" [] rfl rfl
    (Or.inl (by decide))

/-- C6: the Resolver determines the port list by the exact chain: an
explicit bind address wins; otherwise the framework's documented default
is assigned; otherwise the port list is empty and a warning is emitted;
and a `ResolveError` only ever arises from a missing start command, never
from a missing port. -/
theorem resolve_port_chain (m : ManifestInfo) (p : ProjectProfile) :
    (∀ e q, (resolve m p).1 = .ok e → m.explicitBindPort = some q →
      e.ports = [q]) ∧
    (∀ e d, (resolve m p).1 = .ok e → m.explicitBindPort = none →
      frameworkDefaultPort p.framework = some d → e.ports = [d]) ∧
    (∀ e, (resolve m p).1 = .ok e → m.explicitBindPort = none →
      frameworkDefaultPort p.framework = none →
      e.ports = [] ∧ (resolve m p).2 ≠ []) ∧
    (∀ r, (resolve m p).1 = .error r →
      r = ResolveError.NoEntrypoint ∧ startOf m p = none) := by
  refine ⟨?_, ?_, ?_, ?_⟩
  · intro e q he hq
    rcases hstart : startOf m p with _ | cmd
    · simp [resolve, hstart] at he
    · simp only [resolve, hstart, Except.ok.injEq] at he
      subst he
      simp [resolvePorts, hq]
  · intro e d he hq hd
    rcases hstart : startOf m p with _ | cmd
    · simp [resolve, hstart] at he
    · simp only [resolve, hstart, Except.ok.injEq] at he
      subst he
      simp [resolvePorts, hq, hd]
  · intro e he hq hd
    rcases hstart : startOf m p with _ | cmd
    · simp [resolve, hstart] at he
    · simp only [resolve, hstart, Except.ok.injEq] at he
      subst he
      constructor
      · simp [resolvePorts, hq, hd]
      · simp [resolve, hstart, resolvePorts, hq, hd]
  · intro r hr
    rcases hstart : startOf m p with _ | cmd
    · simp only [resolve, hstart, Except.error.injEq] at hr
      exact ⟨hr.symm, rfl⟩
    · simp [resolve, hstart] at hr

/-- The sample manifest: a "start" script and an explicit bind address on
port 3000. -/
def sampleManifest : ManifestInfo :=
  { scripts := [("start", "npm start"), ("build", "npm run build")]
    explicitBindPort := some 3000
    mainFile := some "index.js" }

/-- The entrypoint the Resolver produces for the sample manifest. -/
def sampleResolved : Entrypoint :=
  { startCommand := "npm start"
    workingDir := "/app"
    ports := [3000]
    buildCommand := some "npm run build"
    installCommand := some "npm ci" }

/-- Concrete instantiation of `resolve_port_chain`: the explicit bind
address wins. -/
theorem resolve_port_chain_check : sampleResolved.ports = [3000] :=
  (resolve_port_chain sampleManifest sampleProfile).1 sampleResolved 3000
    rfl rfl

/-- C7: whenever a run of the Orchestrator reaches a `Failed` state, that
state was entered immediately from the running state of the failing
stage (the non-terminal state directly precedes it at the end of the
trace), and the caller receives no artifact bundle at all. -/
theorem orchestrate_failed_isolation (req : AnalysisRequest) (s : Stage)
    (r : String) (h : OState.Failed s r ∈ (orchestrate req).1) :
    (orchestrate req).2 = none ∧
      ∃ pre, (orchestrate req).1 =
        pre ++ [OState.StageRunning s, OState.Failed s r] := by
  by_cases c1 : req.cancelAt = some Stage.Fetching
  · simp [orchestrate, c1] at h
  rcases hf : fetchCheck req.repo req.limits req.wsDir with rf | w
  · simp only [orchestrate, c1, if_false, hf] at h
    simp at h
    obtain ⟨hs, hr⟩ := h
    subst hs
    subst hr
    refine ⟨?_, [OState.Pending], ?_⟩ <;> simp [orchestrate, c1, hf]
  by_cases c2 : req.cancelAt = some Stage.Classifying
  · simp [orchestrate, c1, hf, c2] at h
  rcases hc : classify req.table w.files with rc | p
  · simp only [orchestrate, c1, if_false, hf, c2, hc] at h
    simp at h
    obtain ⟨hs, hr⟩ := h
    subst hs
    subst hr
    refine ⟨?_, [OState.Pending, OState.StageRunning .Fetching], ?_⟩ <;>
      simp [orchestrate, c1, hf, c2, hc]
  by_cases c3 : req.cancelAt = some Stage.Resolving
  · simp [orchestrate, c1, hf, c2, hc, c3] at h
  rcases hres : resolve w.manifest p with ⟨res, warns⟩
  rcases res with rr | e
  · simp only [orchestrate, c1, if_false, hf, c2, hc, c3, hres] at h
    simp at h
    obtain ⟨hs, hr⟩ := h
    subst hs
    subst hr
    refine ⟨?_, [OState.Pending, OState.StageRunning .Fetching,
      OState.StageRunning .Classifying], ?_⟩ <;>
      simp [orchestrate, c1, hf, c2, hc, c3, hres]
  by_cases c4 : req.cancelAt = some Stage.Generating
  · simp [orchestrate, c1, hf, c2, hc, c3, hres, c4] at h
  rcases hsel : select (buildCandidates p e) with _ | cnd
  · simp only [orchestrate, c1, if_false, hf, c2, hc, c3, hres, c4, hsel]
      at h
    simp at h
    obtain ⟨hs, hr⟩ := h
    subst hs
    subst hr
    refine ⟨?_, [OState.Pending, OState.StageRunning .Fetching,
      OState.StageRunning .Classifying, OState.StageRunning .Resolving],
      ?_⟩ <;>
      simp [orchestrate, c1, hf, c2, hc, c3, hres, c4, hsel]
  · simp [orchestrate, c1, hf, c2, hc, c3, hres, c4, hsel] at h

/-- An analysis request whose repository carries no recognizable
manifest, so classification fails. -/
def failReq : AnalysisRequest :=
  { repo := { url := "https://example.com/odd.git"
              revision := "main"
              found := true
              accessible := true
              totalBytes := 100
              fileCount := 1
              fetchSeconds := 1
              files := ["mystery.bin"]
              manifest := { scripts := [], explicitBindPort := none,
                            mainFile := none } }
    limits := smallLimits
    table := []
    wsDir := "/tmp/ws2"
    timestamp := 42
    cancelAt := none }

/-- Concrete instantiation of `orchestrate_failed_isolation` on a run
that fails at the classification stage. -/
theorem orchestrate_failed_isolation_check :
    (orchestrate failReq).2 = none ∧
      ∃ pre, (orchestrate failReq).1 =
        pre ++ [OState.StageRunning Stage.Classifying,
                OState.Failed Stage.Classifying "Unrecognized"] :=
  orchestrate_failed_isolation failReq Stage.Classifying "Unrecognized"
    (by decide)

/-- C8: analyzing the same repository reference and revision twice, with
no upstream change between the calls, yields the same state trace and
the same GenerationResult modulo the timestamp field. -/
theorem analysis_idempotent (req : AnalysisRequest) (t1 t2 : Nat) :
    Option.map stripTimestamp (orchestrate { req with timestamp := t1 }).2 =
        Option.map stripTimestamp (orchestrate { req with timestamp := t2 }).2 ∧
      (orchestrate { req with timestamp := t1 }).1 =
        (orchestrate { req with timestamp := t2 }).1 := by
  obtain ⟨repo, lim, table, wsDir, ts, cancel⟩ := req
  by_cases c1 : cancel = some Stage.Fetching
  · constructor <;> simp [orchestrate, c1]
  rcases hf : fetchCheck repo lim wsDir with rf | w
  · constructor <;> simp [orchestrate, c1, hf]
  by_cases c2 : cancel = some Stage.Classifying
  · constructor <;> simp [orchestrate, c1, hf, c2]
  rcases hc : classify table w.files with rc | p
  · constructor <;> simp [orchestrate, c1, hf, c2, hc]
  by_cases c3 : cancel = some Stage.Resolving
  · constructor <;> simp [orchestrate, c1, hf, c2, hc, c3]
  rcases hres : resolve w.manifest p with ⟨res, warns⟩
  rcases res with rr | e
  · constructor <;> simp [orchestrate, c1, hf, c2, hc, c3, hres]
  by_cases c4 : cancel = some Stage.Generating
  · constructor <;> simp [orchestrate, c1, hf, c2, hc, c3, hres, c4]
  rcases hsel : select (buildCandidates p e) with _ | cnd
  · constructor <;> simp [orchestrate, c1, hf, c2, hc, c3, hres, c4, hsel]
  · constructor <;>
      simp [orchestrate, c1, hf, c2, hc, c3, hres, c4, hsel, stripTimestamp]

end DockMate
